import Mathlib

/-!
Verification of the `stumbler` module (src/module/main.go) against its
natural-language specification.

Modelling conventions:
* Go `float64` channel values are embedded as `ℚ` (exact arithmetic); the one
  place where IEEE-754 non-finite values are observable (division by a zero
  elapsed time) is modelled explicitly by the `F64` type below.
* Sensor reads return a value together with an error flag, exactly as the Go
  `(value, error)` pair; the worker code uses the returned value whether or
  not the error is set, and the embedding keeps that behaviour.
* Logging is modelled by counters / flags recording that an error was logged.
-/

namespace Stumbler

/-- Modelled from the spec: the moving-average implementation lives in the
third-party package `github.com/RobinUS2/golang-moving-average`, which is not
part of `src/`.  Per spec §3/§4.3 a `WindowedAverage` is
`{windowCapacity, buffer (ordered, oldest first), runningSum}`. -/
structure MovingAverage where
  window : ℕ
  buffer : List ℚ
  runningSum : ℚ
deriving DecidableEq

/-- Modelled from the spec: `movingaverage.New(w)` — empty buffer, zero sum. -/
def MovingAverage.new (w : ℕ) : MovingAverage := ⟨w, [], 0⟩

/-- Modelled from the spec (§4.3): `Add(value)` — if the buffer is at
capacity, evict the oldest value and subtract it from the running sum before
inserting the new one; in all cases append the new value and add it to the
running sum. -/
def MovingAverage.Add (m : MovingAverage) (v : ℚ) : MovingAverage :=
  if m.window ≤ m.buffer.length then
    ⟨m.window, m.buffer.tail ++ [v], m.runningSum - m.buffer.headD 0 + v⟩
  else
    ⟨m.window, m.buffer ++ [v], m.runningSum + v⟩

/-- Modelled from the spec (§4.3): `Avg()` returns `runningSum/len(buffer)`,
or the sentinel 0 when the buffer is empty. -/
def MovingAverage.Avg (m : MovingAverage) : ℚ :=
  if m.buffer.isEmpty then 0 else m.runningSum / (m.buffer.length : ℚ)

/-- Feed a whole sequence of values, oldest first, into a `MovingAverage`. -/
def feedAll (m : MovingAverage) (xs : List ℚ) : MovingAverage :=
  xs.foldl MovingAverage.Add m

theorem MovingAverage.Add_window (m : MovingAverage) (v : ℚ) :
    (m.Add v).window = m.window := by
  unfold MovingAverage.Add; split <;> rfl

theorem headD_add_tail_sum (l : List ℚ) : l.headD 0 + l.tail.sum = l.sum := by
  cases l <;> simp

theorem MovingAverage.Add_sumInv (m : MovingAverage) (v : ℚ)
    (h : m.runningSum = m.buffer.sum) :
    (m.Add v).runningSum = (m.Add v).buffer.sum := by
  unfold MovingAverage.Add
  split
  · have hh := headD_add_tail_sum m.buffer
    simp only [List.sum_append, List.sum_cons, List.sum_nil, add_zero, h]
    linarith
  · simp [List.sum_append, h]

theorem feedAll_sumInv (xs : List ℚ) (m : MovingAverage)
    (h : m.runningSum = m.buffer.sum) :
    (feedAll m xs).runningSum = (feedAll m xs).buffer.sum := by
  induction xs generalizing m with
  | nil => exact h
  | cons x xs ih =>
    simp only [feedAll, List.foldl_cons] at *
    exact ih _ (MovingAverage.Add_sumInv m x h)

theorem feedAll_window (xs : List ℚ) (m : MovingAverage) :
    (feedAll m xs).window = m.window := by
  induction xs generalizing m with
  | nil => rfl
  | cons x xs ih =>
    simp only [feedAll, List.foldl_cons] at *
    rw [ih, MovingAverage.Add_window]

/-- The buffer after feeding `xs` into a fresh window of capacity `w ≥ 1`
holds exactly the last `w` values of `xs` (all of them when fewer). -/
theorem feedAll_buffer (w : ℕ) (hw : 1 ≤ w) (xs : List ℚ) :
    (feedAll (MovingAverage.new w) xs).buffer = xs.drop (xs.length - w) := by
  induction xs using List.reverseRecOn with
  | nil => simp [feedAll, MovingAverage.new]
  | append_singleton xs v ih =>
    have hfold : feedAll (MovingAverage.new w) (xs ++ [v]) =
        (feedAll (MovingAverage.new w) xs).Add v := by
      simp [feedAll, List.foldl_append]
    set M := feedAll (MovingAverage.new w) xs with hM
    have hwin : M.window = w := feedAll_window xs _
    have hlen : M.buffer.length = xs.length - (xs.length - w) := by
      rw [ih, List.length_drop]
    rw [hfold]
    unfold MovingAverage.Add
    by_cases hcap : w ≤ xs.length
    · have hguard : M.window ≤ M.buffer.length := by omega
      rw [if_pos hguard]
      have h1 : M.buffer.tail = xs.drop (xs.length - w + 1) := by
        rw [ih, List.tail_drop]
      have h2 : xs.length - w + 1 = xs.length + 1 - w := by omega
      have h3 : xs.length + 1 - w ≤ xs.length := by omega
      simp only [h1, h2]
      rw [List.length_append, List.length_cons, List.length_nil,
        List.drop_append_of_le_length h3]
    · have hguard : ¬ M.window ≤ M.buffer.length := by omega
      rw [if_neg hguard]
      have h0 : xs.length - w = 0 := by omega
      have h1 : xs.length + 1 - w = 0 := by omega
      rw [ih, h0, List.drop_zero, List.length_append, List.length_cons,
        List.length_nil, h1, List.drop_zero]

/-- C3: for a fresh `WindowedAverage` of capacity 50 fed with a sequence of
`N` values: if `N = 0`, `Avg` is the sentinel 0; if `1 ≤ N ≤ 50`, `Avg` is
the arithmetic mean of all `N` values; if `N > 50`, `Avg` is the arithmetic
mean of exactly the last 50 values. -/
theorem C3_windowed_average (xs : List ℚ) :
    (xs = [] → (feedAll (MovingAverage.new 50) xs).Avg = 0) ∧
    (xs ≠ [] → xs.length ≤ 50 →
      (feedAll (MovingAverage.new 50) xs).Avg = xs.sum / (xs.length : ℚ)) ∧
    (50 < xs.length →
      (feedAll (MovingAverage.new 50) xs).Avg =
        (xs.drop (xs.length - 50)).sum / 50) := by
  have hbuf := feedAll_buffer 50 (by norm_num) xs
  have hsum := feedAll_sumInv xs (MovingAverage.new 50) rfl
  refine ⟨?_, ?_, ?_⟩
  · intro h; subst h; rfl
  · intro hne hlen
    have h0 : xs.length - 50 = 0 := by omega
    rw [h0, List.drop_zero] at hbuf
    unfold MovingAverage.Avg
    rw [hbuf, hsum, hbuf]
    rw [if_neg (by simpa [List.isEmpty_iff] using hne)]
  · intro hlen
    have hlen50 : (feedAll (MovingAverage.new 50) xs).buffer.length = 50 := by
      rw [hbuf, List.length_drop]; omega
    unfold MovingAverage.Avg
    rw [if_neg (by
      intro hemp
      rw [List.isEmpty_iff] at hemp
      rw [hemp] at hlen50
      simp at hlen50)]
    rw [hbuf] at hlen50
    rw [hsum, hbuf, hlen50]
    norm_num

/-- Witness for C3: feeding `[1,2,3]` (a nonempty sequence of length ≤ 50)
gives the arithmetic mean of the three values. -/
theorem C3_witness :
    (feedAll (MovingAverage.new 50) [1, 2, 3]).Avg =
      ([1, 2, 3] : List ℚ).sum / (([1, 2, 3] : List ℚ).length : ℚ) :=
  (C3_windowed_average [1, 2, 3]).2.1 (by decide) (by decide)

/-! ### Sampling Worker (the goroutine body of `startBackground`, main.go 150-200) -/

/-- A 3-vector of channel values (Go `r3.Vector`). -/
structure Vector3 where
  x : ℚ
  y : ℚ
  z : ℚ
deriving DecidableEq

/-- Euler angles exposed by a pose (`pose.EulerAngles()`). -/
structure EulerAngles where
  pitch : ℚ
  roll : ℚ
  yaw : ℚ
deriving DecidableEq

/-- The sensor as seen by the worker: each read returns a Go `(value, error)`
pair, the error modelled as a `Bool` flag.  `linAcc`/`angVel` are indexed by
the loop iteration at which they are issued; `orientation` is the single
final read, whose pose is `Option` so that a `nil` pose (possible when the
read errors) is representable. -/
structure Sensor where
  linAcc : ℕ → Vector3 × Bool
  angVel : ℕ → Vector3 × Bool
  orientation : Option EulerAngles × Bool

/-- Worker loop state: iteration counter, the six moving averages, and
counters of the errors logged for each read (`s.logger.Error(err)`). -/
structure WState where
  iterations : ℕ
  X : MovingAverage
  Y : MovingAverage
  Z : MovingAverage
  RX : MovingAverage
  RY : MovingAverage
  RZ : MovingAverage
  accelErrs : ℕ
  gyroErrs : ℕ
deriving DecidableEq

/-- Worker state at goroutine start: six fresh `movingaverage.New(50)`,
zero iterations. -/
def initWState : WState :=
  ⟨0, .new 50, .new 50, .new 50, .new 50, .new 50, .new 50, 0, 0⟩

/-- One iteration of the sampling loop (main.go 171-189): read acceleration,
log on error, feed X/Y/Z with the returned components (the code calls
`X.Add(accel.X)` etc. unconditionally, error or not); then the same for the
gyro and RX/RY/RZ; finally `iterations++`. -/
def loopStep (sensor : Sensor) (st : WState) : WState :=
  let ar := sensor.linAcc st.iterations
  let accelErrs := if ar.2 then st.accelErrs + 1 else st.accelErrs
  let gr := sensor.angVel st.iterations
  let gyroErrs := if gr.2 then st.gyroErrs + 1 else st.gyroErrs
  ⟨st.iterations + 1,
    st.X.Add ar.1.x, st.Y.Add ar.1.y, st.Z.Add ar.1.z,
    st.RX.Add gr.1.x, st.RY.Add gr.1.y, st.RZ.Add gr.1.z,
    accelErrs, gyroErrs⟩

/-- The fixed iteration cap of the loop (`iterations >= 10000`). -/
def workerBudget : ℕ := 10000

/-- The sampling loop: at the top of each iteration check
`ctx.Err() != nil || iterations >= 10000` and break, else run the body.
`cancelled i` tells whether `ctx.Err() != nil` at the check before
iteration `i`; fuel bounds the recursion and is chosen large enough
(`workerBudget + 1`) that the loop always reaches its exit condition. -/
def runFrom (sensor : Sensor) (cancelled : ℕ → Bool) : ℕ → WState → WState
  | 0, st => st
  | fuel + 1, st =>
    if cancelled st.iterations then st
    else if workerBudget ≤ st.iterations then st
    else runFrom sensor cancelled fuel (loopStep sensor st)

/-- The whole sampling loop from the fresh state. -/
def runLoop (sensor : Sensor) (cancelled : ℕ → Bool) : WState :=
  runFrom sensor cancelled (workerBudget + 1) initWState

/-- A Go `float64` as observable here: a finite rational, `+Inf`, or `NaN`. -/
inductive F64 where
  | fin (q : ℚ)
  | inf
  | nan
deriving DecidableEq

/-- Whether a `F64` value is finite. -/
def F64.isFinite : F64 → Bool
  | .fin _ => true
  | _ => false

/-- Go `float64` division for a nonnegative numerator and denominator:
division by zero yields `+Inf` (or `NaN` for `0/0`), never a fault. -/
def goDiv (a b : ℚ) : F64 :=
  if b = 0 then (if a = 0 then .nan else .inf) else .fin (a / b)

/-- The "Run Finished" / "Averages" summary logged after the loop
(main.go 190-193). -/
structure Summary where
  runtime : ℚ
  iterations : ℕ
  freq : F64
  avgX : ℚ
  avgY : ℚ
  avgZ : ℚ
  avgRX : ℚ
  avgRY : ℚ
  avgRZ : ℚ
deriving DecidableEq

/-- Observable outcome of one worker run: the summary, the orientation log
line (if reached), whether the orientation error was logged, whether the
goroutine faulted on `pose.EulerAngles()` with a nil pose, and whether the
deferred `wg.Done()` ran. -/
structure WorkerResult where
  summary : Summary
  orientationOut : Option EulerAngles
  orientErrLogged : Bool
  faulted : Bool
  completed : Bool
deriving DecidableEq

/-- The whole worker goroutine (main.go 150-200): run the loop, log the
summary (`runtime` is the elapsed wall time, passed as a parameter), then do
the final orientation read.  The code logs an orientation error but then
calls `pose.EulerAngles()` regardless: with a `nil` pose that faults, with a
non-nil pose the pitch/roll/yaw line is emitted even when the read errored.
`wg.Done()` is deferred, so `completed` is true on every path. -/
def runWorker (sensor : Sensor) (cancelled : ℕ → Bool) (elapsed : ℚ) :
    WorkerResult :=
  let st := runLoop sensor cancelled
  let summary : Summary :=
    ⟨elapsed, st.iterations, goDiv (st.iterations : ℚ) elapsed,
      st.X.Avg, st.Y.Avg, st.Z.Avg, st.RX.Avg, st.RY.Avg, st.RZ.Avg⟩
  match sensor.orientation with
  | (none, e) => ⟨summary, none, e, true, true⟩
  | (some p, e) => ⟨summary, some p, e, false, true⟩

/-- A context that is never cancelled. -/
def neverCancelled : ℕ → Bool := fun _ => false

/-- A context that is already cancelled at the first check. -/
def immediateCancel : ℕ → Bool := fun _ => true

/-- A sensor whose every read fails; the accompanying values are the Go zero
values (zero vector, nil pose). -/
def failSensor : Sensor :=
  ⟨fun _ => (⟨0, 0, 0⟩, true), fun _ => (⟨0, 0, 0⟩, true), (none, true)⟩

/-- A sensor whose acceleration read fails (returning the vector `(5,0,0)`
with the error) while the gyro and orientation reads succeed. -/
def c1Sensor : Sensor :=
  ⟨fun _ => (⟨5, 0, 0⟩, true), fun _ => (⟨0, 0, 0⟩, false),
    (some ⟨0, 0, 0⟩, false)⟩

theorem loopStep_iterations (sensor : Sensor) (st : WState) :
    (loopStep sensor st).iterations = st.iterations + 1 := rfl

/-- C1 counterexample: in an iteration whose acceleration read fails, the
worker logs the error but the acceleration averages ARE updated (the buffer
grows and the average changes), contradicting "does not update the
corresponding three channel averages for that sample". -/
theorem C1_counterexample :
    (c1Sensor.linAcc 0).2 = true ∧
    (loopStep c1Sensor initWState).accelErrs = 1 ∧
    (loopStep c1Sensor initWState).X.buffer ≠ initWState.X.buffer ∧
    (loopStep c1Sensor initWState).X.Avg ≠ initWState.X.Avg := by
  have hbuf : (loopStep c1Sensor initWState).X.buffer = [(5 : ℚ)] := rfl
  have hbuf0 : initWState.X.buffer = [] := rfl
  have hsum5 : (loopStep c1Sensor initWState).X.runningSum = 5 := by
    show (0 : ℚ) + 5 = 5
    norm_num
  have hAvg : (loopStep c1Sensor initWState).X.Avg = 5 := by
    unfold MovingAverage.Avg
    rw [hbuf, hsum5]
    norm_num
  have hAvg0 : initWState.X.Avg = 0 := rfl
  refine ⟨rfl, rfl, ?_, ?_⟩
  · rw [hbuf, hbuf0]
    simp
  · rw [hAvg, hAvg0]
    norm_num

/-- C1 (amended): in every iteration, a failing read is logged and the loop
is not aborted (the iteration completes and the counter advances), the two
reads' error policies are independent (each error counter depends only on
its own read), but the returned components are fed into the channel
averages whether or not the read failed. -/
theorem C1_error_policy (sensor : Sensor) (st : WState) :
    (loopStep sensor st).iterations = st.iterations + 1 ∧
    (loopStep sensor st).X = st.X.Add (sensor.linAcc st.iterations).1.x ∧
    (loopStep sensor st).Y = st.Y.Add (sensor.linAcc st.iterations).1.y ∧
    (loopStep sensor st).Z = st.Z.Add (sensor.linAcc st.iterations).1.z ∧
    (loopStep sensor st).RX = st.RX.Add (sensor.angVel st.iterations).1.x ∧
    (loopStep sensor st).RY = st.RY.Add (sensor.angVel st.iterations).1.y ∧
    (loopStep sensor st).RZ = st.RZ.Add (sensor.angVel st.iterations).1.z ∧
    (loopStep sensor st).accelErrs =
      (if (sensor.linAcc st.iterations).2 then st.accelErrs + 1
        else st.accelErrs) ∧
    (loopStep sensor st).gyroErrs =
      (if (sensor.angVel st.iterations).2 then st.gyroErrs + 1
        else st.gyroErrs) :=
  ⟨rfl, rfl, rfl, rfl, rfl, rfl, rfl, rfl, rfl⟩

/-- Characterization of a whole worker run: the summary is built from the
loop's final state and the elapsed time; the orientation line carries the
returned pose verbatim; the goroutine faults exactly when the pose is nil;
the deferred completion always fires. -/
theorem runWorker_eq (sensor : Sensor) (cancelled : ℕ → Bool) (elapsed : ℚ) :
    runWorker sensor cancelled elapsed =
      ⟨⟨elapsed, (runLoop sensor cancelled).iterations,
        goDiv ((runLoop sensor cancelled).iterations : ℚ) elapsed,
        (runLoop sensor cancelled).X.Avg, (runLoop sensor cancelled).Y.Avg,
        (runLoop sensor cancelled).Z.Avg, (runLoop sensor cancelled).RX.Avg,
        (runLoop sensor cancelled).RY.Avg, (runLoop sensor cancelled).RZ.Avg⟩,
        sensor.orientation.1, sensor.orientation.2,
        sensor.orientation.1.isNone, true⟩ := by
  unfold runWorker
  rcases ho : sensor.orientation with ⟨o, e⟩
  cases o <;> rfl

/-! ### C4: run on an always-failing sensor -/

theorem runFrom_iterations (sensor : Sensor) (f : ℕ) :
    ∀ st : WState, st.iterations ≤ workerBudget →
      (runFrom sensor neverCancelled f st).iterations =
        min workerBudget (st.iterations + f) := by
  induction f with
  | zero =>
    intro st h
    simp only [runFrom]
    omega
  | succ f ih =>
    intro st h
    rw [runFrom]
    rw [if_neg (by simp [neverCancelled])]
    by_cases hb : workerBudget ≤ st.iterations
    · rw [if_pos hb]; omega
    · rw [if_neg hb]
      rw [ih (loopStep sensor st) (by rw [loopStep_iterations]; omega)]
      rw [loopStep_iterations]
      omega

/-- All values ever held by a moving average are zero and so is its sum. -/
def allZero (m : MovingAverage) : Prop :=
  m.runningSum = 0 ∧ ∀ v ∈ m.buffer, v = 0

theorem allZero_Avg (m : MovingAverage) (h : allZero m) : m.Avg = 0 := by
  unfold MovingAverage.Avg
  split
  · rfl
  · rw [h.1]; simp

theorem allZero_Add_zero (m : MovingAverage) (h : allZero m) :
    allZero (m.Add 0) := by
  obtain ⟨hs, hb⟩ := h
  unfold MovingAverage.Add
  split
  · refine ⟨?_, ?_⟩
    · have hh : m.buffer.headD 0 = 0 := by
        cases hbuf : m.buffer with
        | nil => rfl
        | cons a l =>
          have := hb a (by rw [hbuf]; exact List.mem_cons_self a l)
          simp [this]
      show m.runningSum - m.buffer.headD 0 + 0 = 0
      rw [hh, hs]
      ring
    · intro v hv
      rcases List.mem_append.mp hv with h1 | h1
      · exact hb v (List.mem_of_mem_tail h1)
      · simpa using h1
  · refine ⟨by simp [hs], ?_⟩
    intro v hv
    rcases List.mem_append.mp hv with h1 | h1
    · exact hb v h1
    · simpa using h1

theorem allZero_new (w : ℕ) : allZero (MovingAverage.new w) :=
  ⟨rfl, by intro v hv; simp [MovingAverage.new] at hv⟩

/-- All six channel averages of a worker state hold only zeros. -/
def allZeroState (st : WState) : Prop :=
  allZero st.X ∧ allZero st.Y ∧ allZero st.Z ∧
    allZero st.RX ∧ allZero st.RY ∧ allZero st.RZ

theorem loopStep_failSensor_allZero (st : WState) (h : allZeroState st) :
    allZeroState (loopStep failSensor st) := by
  obtain ⟨h1, h2, h3, h4, h5, h6⟩ := h
  exact ⟨allZero_Add_zero _ h1, allZero_Add_zero _ h2, allZero_Add_zero _ h3,
    allZero_Add_zero _ h4, allZero_Add_zero _ h5, allZero_Add_zero _ h6⟩

theorem runFrom_failSensor_allZero (f : ℕ) :
    ∀ st : WState, allZeroState st →
      allZeroState (runFrom failSensor neverCancelled f st) := by
  induction f with
  | zero => intro st h; exact h
  | succ f ih =>
    intro st h
    rw [runFrom]
    split
    · exact h
    · split
      · exact h
      · exact ih _ (loopStep_failSensor_allZero st h)

theorem initWState_allZero : allZeroState initWState :=
  ⟨allZero_new 50, allZero_new 50, allZero_new 50,
    allZero_new 50, allZero_new 50, allZero_new 50⟩

/-- C4: a worker on a sensor whose every read fails (returning the Go zero
values), never cancelled, terminates after exactly 10000 iterations
(`workerBudget`), at no point of the run does any of the six averages move
above the initial sentinel 0, and the deferred completion signal still
fires. -/
theorem C4_always_fail_run (elapsed : ℚ) :
    (runWorker failSensor neverCancelled elapsed).summary.iterations =
      workerBudget ∧
    (runWorker failSensor neverCancelled elapsed).completed = true ∧
    (∀ f : ℕ,
      (runFrom failSensor neverCancelled f initWState).X.Avg = 0 ∧
      (runFrom failSensor neverCancelled f initWState).Y.Avg = 0 ∧
      (runFrom failSensor neverCancelled f initWState).Z.Avg = 0 ∧
      (runFrom failSensor neverCancelled f initWState).RX.Avg = 0 ∧
      (runFrom failSensor neverCancelled f initWState).RY.Avg = 0 ∧
      (runFrom failSensor neverCancelled f initWState).RZ.Avg = 0) ∧
    (runWorker failSensor neverCancelled elapsed).summary.avgX = 0 ∧
    (runWorker failSensor neverCancelled elapsed).summary.avgY = 0 ∧
    (runWorker failSensor neverCancelled elapsed).summary.avgZ = 0 ∧
    (runWorker failSensor neverCancelled elapsed).summary.avgRX = 0 ∧
    (runWorker failSensor neverCancelled elapsed).summary.avgRY = 0 ∧
    (runWorker failSensor neverCancelled elapsed).summary.avgRZ = 0 := by
  have hz : ∀ f : ℕ,
      allZeroState (runFrom failSensor neverCancelled f initWState) :=
    fun f => runFrom_failSensor_allZero f initWState initWState_allZero
  have hloop := hz (workerBudget + 1)
  obtain ⟨z1, z2, z3, z4, z5, z6⟩ := hloop
  have hit := runFrom_iterations failSensor (workerBudget + 1) initWState
    (Nat.zero_le _)
  have hw := runWorker_eq failSensor neverCancelled elapsed
  have hIt : (runWorker failSensor neverCancelled elapsed).summary.iterations
      = (runLoop failSensor neverCancelled).iterations := by rw [hw]
  have hC : (runWorker failSensor neverCancelled elapsed).completed = true :=
    by rw [hw]
  have hX : (runWorker failSensor neverCancelled elapsed).summary.avgX
      = (runLoop failSensor neverCancelled).X.Avg := by rw [hw]
  have hY : (runWorker failSensor neverCancelled elapsed).summary.avgY
      = (runLoop failSensor neverCancelled).Y.Avg := by rw [hw]
  have hZ : (runWorker failSensor neverCancelled elapsed).summary.avgZ
      = (runLoop failSensor neverCancelled).Z.Avg := by rw [hw]
  have hRX : (runWorker failSensor neverCancelled elapsed).summary.avgRX
      = (runLoop failSensor neverCancelled).RX.Avg := by rw [hw]
  have hRY : (runWorker failSensor neverCancelled elapsed).summary.avgRY
      = (runLoop failSensor neverCancelled).RY.Avg := by rw [hw]
  have hRZ : (runWorker failSensor neverCancelled elapsed).summary.avgRZ
      = (runLoop failSensor neverCancelled).RZ.Avg := by rw [hw]
  have hIt2 : (runLoop failSensor neverCancelled).iterations = workerBudget :=
    hit.trans (by decide)
  refine ⟨hIt.trans hIt2, hC, ?_, hX.trans (allZero_Avg _ z1),
    hY.trans (allZero_Avg _ z2), hZ.trans (allZero_Avg _ z3),
    hRX.trans (allZero_Avg _ z4), hRY.trans (allZero_Avg _ z5),
    hRZ.trans (allZero_Avg _ z6)⟩
  intro f
  obtain ⟨w1, w2, w3, w4, w5, w6⟩ := hz f
  exact ⟨allZero_Avg _ w1, allZero_Avg _ w2, allZero_Avg _ w3,
    allZero_Avg _ w4, allZero_Avg _ w5, allZero_Avg _ w6⟩

/-! ### C5: the final orientation read -/

/-- A sensor whose sampling reads succeed but whose final orientation read
fails while still returning a (non-nil) pose. -/
def c5Sensor : Sensor :=
  ⟨fun _ => (⟨0, 0, 0⟩, false), fun _ => (⟨0, 0, 0⟩, false),
    (some ⟨1, 2, 3⟩, true)⟩

/-- C5 counterexample: when the final orientation read fails but returns a
non-nil pose, the worker logs the error yet still emits the pitch/roll/yaw
line instead of omitting it. -/
theorem C5_counterexample :
    (runWorker c5Sensor immediateCancel 1).orientErrLogged = true ∧
    (runWorker c5Sensor immediateCancel 1).orientationOut ≠ none := by
  rw [runWorker_eq]
  exact ⟨rfl, by simp [c5Sensor]⟩

/-- C5 (amended): after the loop the worker performs one final orientation
read and logs any error; completion (the deferred `wg.Done`) is signalled on
every path; but the emit/omit decision depends only on whether the returned
pose is nil, not on the error flag: a non-nil pose is emitted even when the
read failed, and a nil pose makes the goroutine fault on
`pose.EulerAngles()` instead of omitting cleanly. -/
theorem C5_orientation_step (sensor : Sensor) (cancelled : ℕ → Bool)
    (elapsed : ℚ) :
    (runWorker sensor cancelled elapsed).completed = true ∧
    (runWorker sensor cancelled elapsed).orientErrLogged =
      sensor.orientation.2 ∧
    (sensor.orientation.1 = none →
      (runWorker sensor cancelled elapsed).faulted = true ∧
      (runWorker sensor cancelled elapsed).orientationOut = none) ∧
    (∀ p : EulerAngles, sensor.orientation.1 = some p →
      (runWorker sensor cancelled elapsed).faulted = false ∧
      (runWorker sensor cancelled elapsed).orientationOut = some p) := by
  rw [runWorker_eq]
  refine ⟨rfl, rfl, ?_, ?_⟩
  · intro h
    rw [h]
    exact ⟨rfl, rfl⟩
  · intro p hp
    rw [hp]
    exact ⟨rfl, rfl⟩

/-- Witness for C5 (amended): a concrete failing-but-non-nil orientation
read is emitted, not omitted, and completion is still signalled. -/
theorem C5_witness :
    (runWorker c5Sensor immediateCancel 1).completed = true ∧
    (runWorker c5Sensor immediateCancel 1).faulted = false ∧
    (runWorker c5Sensor immediateCancel 1).orientationOut = some ⟨1, 2, 3⟩ :=
  ⟨(C5_orientation_step c5Sensor immediateCancel 1).1,
    ((C5_orientation_step c5Sensor immediateCancel 1).2.2.2 ⟨1, 2, 3⟩ rfl).1,
    ((C5_orientation_step c5Sensor immediateCancel 1).2.2.2 ⟨1, 2, 3⟩ rfl).2⟩

/-! ### C8: the summary and the derived frequency -/

/-- C8 counterexample: the frequency computation has no guard against zero
elapsed time — with zero elapsed time the logged frequency is a non-finite
float (`0/0 = NaN` here), not a guarded finite value. -/
theorem C8_counterexample :
    ((runWorker failSensor immediateCancel 0).summary.freq).isFinite
      = false := by
  decide

/-- C8 (amended): on loop exit the summary contains the runtime, the
iteration count, the derived frequency and the six final averages, but the
frequency is the bare float division `iterations / elapsedSeconds` with no
zero-elapsed guard: it is finite exactly when the elapsed time is nonzero,
and non-finite (`NaN` or `+Inf`) when it is zero. -/
theorem C8_summary (sensor : Sensor) (cancelled : ℕ → Bool) (elapsed : ℚ) :
    (runWorker sensor cancelled elapsed).summary.runtime = elapsed ∧
    (runWorker sensor cancelled elapsed).summary.iterations =
      (runLoop sensor cancelled).iterations ∧
    (runWorker sensor cancelled elapsed).summary.freq =
      goDiv ((runLoop sensor cancelled).iterations : ℚ) elapsed ∧
    (runWorker sensor cancelled elapsed).summary.avgX =
      (runLoop sensor cancelled).X.Avg ∧
    (runWorker sensor cancelled elapsed).summary.avgY =
      (runLoop sensor cancelled).Y.Avg ∧
    (runWorker sensor cancelled elapsed).summary.avgZ =
      (runLoop sensor cancelled).Z.Avg ∧
    (runWorker sensor cancelled elapsed).summary.avgRX =
      (runLoop sensor cancelled).RX.Avg ∧
    (runWorker sensor cancelled elapsed).summary.avgRY =
      (runLoop sensor cancelled).RY.Avg ∧
    (runWorker sensor cancelled elapsed).summary.avgRZ =
      (runLoop sensor cancelled).RZ.Avg ∧
    (elapsed ≠ 0 → (runWorker sensor cancelled elapsed).summary.freq =
      F64.fin (((runLoop sensor cancelled).iterations : ℚ) / elapsed)) ∧
    (elapsed = 0 →
      ((runWorker sensor cancelled elapsed).summary.freq).isFinite
        = false) := by
  rw [runWorker_eq]
  refine ⟨rfl, rfl, rfl, rfl, rfl, rfl, rfl, rfl, rfl, ?_, ?_⟩
  · intro h
    show goDiv ((runLoop sensor cancelled).iterations : ℚ) elapsed = _
    unfold goDiv
    rw [if_neg h]
  · intro h
    subst h
    show (goDiv ((runLoop sensor cancelled).iterations : ℚ) 0).isFinite
      = false
    unfold goDiv
    rw [if_pos rfl]
    split <;> rfl

/-- Witness for C8 (amended): with nonzero elapsed time the frequency is the
finite quotient. -/
theorem C8_witness :
    (runWorker failSensor immediateCancel 1).summary.freq =
      F64.fin (((runLoop failSensor immediateCancel).iterations : ℚ) / 1) :=
  (C8_summary failSensor immediateCancel 1).2.2.2.2.2.2.2.2.2.1 (by norm_num)

/-! ### Lifecycle Controller (`stumbler` struct, main.go 92-153) -/

/-- The module config (`Config`): one field, the name of the imu dependency
(Go zero value `""` when the JSON field is absent or empty). -/
structure Config where
  IMU : String
deriving DecidableEq

/-- Configuration-time errors: `utils.NewConfigValidationFieldRequiredError`
carries the path and the missing field name;
`movementsensor.FromDependencies` fails when the named dependency is not
present. -/
inductive ConfigError where
  | fieldRequired (path : String) (field : String)
  | missingDependency (name : String)
deriving DecidableEq

/-- `Config.Validate` (main.go 75-80): empty `IMU` fails with the
field-required error naming `"imu"`; otherwise the dependency is returned. -/
def Config.Validate (cfg : Config) (path : String) :
    Except ConfigError (List String) :=
  if cfg.IMU = "" then .error (.fieldRequired path "imu")
  else .ok [cfg.IMU]

/-- State of a `stumbler` instance as shared with its background workers.
`cancelFunc` holds the token of the most recent `context.WithCancel`
(Go nil when none yet); `startedWorkers` lists the tokens of all goroutines
launched (each did `wg.Add(1)`); `cancelledTokens` the tokens whose cancel
function has been invoked; `joinedAll` whether `wg.Wait` has been observed
since the last start. -/
structure Controller where
  imu : Option String
  cancelFunc : Option ℕ
  startedWorkers : List ℕ
  cancelledTokens : List ℕ
  joinedAll : Bool
  nextToken : ℕ
deriving DecidableEq

/-- The freshly constructed instance (`newStumbler` before `Reconfigure`):
all fields are Go zero values. -/
def Controller.new : Controller := ⟨none, none, [], [], true, 0⟩

/-- `startBackground` (main.go 144-153): `wg.Add(1)`, create a fresh
cancellable context, overwrite `s.cancelFunc` with its cancel function, and
launch the goroutine.  The previous worker is neither cancelled nor
awaited. -/
def startBackground (s : Controller) : Controller :=
  { s with startedWorkers := s.startedWorkers ++ [s.nextToken],
           cancelFunc := some s.nextToken,
           joinedAll := false,
           nextToken := s.nextToken + 1 }

/-- `Reconfigure` (main.go 101-115): resolve the imu from the dependencies
(`movementsensor.FromDependencies`); on failure return the error with the
state untouched; on success install the handle and `startBackground`. -/
def Reconfigure (s : Controller) (deps : List (String × String))
    (cfg : Config) : Controller × Option ConfigError :=
  match deps.lookup cfg.IMU with
  | none => (s, some (.missingDependency cfg.IMU))
  | some imuName => (startBackground { s with imu := some imuName }, none)

/-- Insert a token into the set of cancelled tokens (invoking a context's
cancel function twice is the same as invoking it once). -/
def addToken (t : ℕ) (l : List ℕ) : List ℕ := if t ∈ l then l else l ++ [t]

/-- `Close` (main.go 133-142): under the lock, invoke `s.cancelFunc` if it
is non-nil, then `wg.Wait()`; always returns nil. -/
def Close (s : Controller) : Controller × Option String :=
  let s1 := match s.cancelFunc with
    | none => s
    | some t => { s with cancelledTokens := addToken t s.cancelledTokens }
  ({ s1 with joinedAll := true }, none)

/-- A dynamically typed Go `interface{}` value as it appears in a
`DoCommand` request map: a string or some other value. -/
inductive GoValue where
  | str (s : String)
  | num (n : ℤ)
deriving DecidableEq

/-- `DoCommand` request errors: `errors.New("missing 'command' string")`
and `fmt.Errorf("unknown command string %s", cmd)` naming the value. -/
inductive CmdError where
  | missingCommand
  | unknownCommand (v : GoValue)
deriving DecidableEq

/-- `DoCommand` (main.go 117-131): look up the `"command"` key; absent →
missing-field error; `"get"` → empty map; anything else → unknown-command
error naming the value. -/
def DoCommand (req : List (String × GoValue)) :
    Except CmdError (List (String × GoValue)) :=
  match req.lookup "command" with
  | none => .error .missingCommand
  | some cmd =>
    if cmd = .str "get" then .ok [] else .error (.unknownCommand cmd)

/-- `DoCommand` as a method on the instance: the method body reads and
writes no field of the receiver. -/
def DoCommandS (s : Controller) (req : List (String × GoValue)) :
    Controller × Except CmdError (List (String × GoValue)) :=
  (s, DoCommand req)

/-! ### C2: Reconfigure does not cancel the previous worker -/

/-- The dependencies and the state after two successive valid
`Reconfigure` calls on one live instance. -/
def twoDeps : List (String × String) := [("imu1", "sensorA"), ("imu2", "sensorB")]

/-- State after `Reconfigure(imu1)` then `Reconfigure(imu2)`. -/
def twoReconfigs : Controller :=
  (Reconfigure (Reconfigure Controller.new twoDeps ⟨"imu1"⟩).1
    twoDeps ⟨"imu2"⟩).1

/-- C2: after a second `Reconfigure` on a live instance, two workers have
been started, the first one's cancel function was never invoked (its token
is not among the cancelled ones — indeed no token is), no join happened
between the two starts, and `cancelFunc` now points at the second worker
only, so the first can never be cancelled again.  This contradicts the
claim that the previous Worker is cancelled and joined before the new one
starts. -/
theorem C2_reconfigure_no_cancel :
    twoReconfigs.startedWorkers = [0, 1] ∧
    twoReconfigs.cancelledTokens = [] ∧
    twoReconfigs.joinedAll = false ∧
    twoReconfigs.cancelFunc = some 1 := by
  refine ⟨?_, ?_, ?_, ?_⟩ <;> rfl

/-! ### C6: DoCommand dispatch -/

/-- C6: a request without a `"command"` key fails with the missing-field
error; `command = "get"` succeeds with the empty map; any other command
value fails with the unknown-command error naming that value. -/
theorem C6_do_command (req : List (String × GoValue)) :
    (req.lookup "command" = none → DoCommand req = .error .missingCommand) ∧
    (req.lookup "command" = some (.str "get") → DoCommand req = .ok []) ∧
    (∀ v : GoValue, req.lookup "command" = some v → v ≠ .str "get" →
      DoCommand req = .error (.unknownCommand v)) := by
  refine ⟨?_, ?_, ?_⟩
  · intro h
    unfold DoCommand
    rw [h]
  · intro h
    unfold DoCommand
    rw [h]
    rfl
  · intro v hv hne
    unfold DoCommand
    rw [hv]
    simp [hne]

/-- Witness for C6: the three concrete scenarios from the spec. -/
theorem C6_witness :
    DoCommand [("command", .str "bogus")] =
      .error (.unknownCommand (.str "bogus")) ∧
    DoCommand [("command", .str "get")] = .ok [] ∧
    DoCommand [] = .error .missingCommand :=
  ⟨(C6_do_command [("command", .str "bogus")]).2.2 (.str "bogus") rfl
      (by decide),
    (C6_do_command [("command", .str "get")]).2.1 rfl,
    (C6_do_command []).1 rfl⟩

/-! ### C7: Stop/Close -/

theorem mem_addToken_self (t : ℕ) (l : List ℕ) : t ∈ addToken t l := by
  unfold addToken
  split
  · assumption
  · simp

theorem addToken_idem (t : ℕ) (l : List ℕ) :
    addToken t (addToken t l) = addToken t l :=
  calc addToken t (addToken t l)
      = if t ∈ addToken t l then addToken t l else addToken t l ++ [t] := rfl
    _ = addToken t l := if_pos (mem_addToken_self t l)

/-- `Close` with no cancel function installed: only the join is recorded;
the nil error is returned. -/
theorem Close_none (s : Controller) (h : s.cancelFunc = none) :
    Close s = ({ s with joinedAll := true }, none) := by
  unfold Close
  rw [h]
  simp [h]

/-- `Close` with a cancel function installed: its token is cancelled, the
join is recorded, the nil error is returned. -/
theorem Close_some (s : Controller) (t : ℕ) (h : s.cancelFunc = some t) :
    Close s =
      ({ s with
          cancelledTokens := addToken t s.cancelledTokens
          joinedAll := true }, none) := by
  unfold Close
  rw [h]

/-- C7: `Close` never fails (always returns the nil error), cancels the
active worker's context when one exists, records the join (`wg.Wait`), is
safe on a never-configured instance, and a second call is a no-op returning
the same state and the nil error. -/
theorem C7_close (s : Controller) :
    (Close s).2 = none ∧
    (Close s).1.joinedAll = true ∧
    (∀ t : ℕ, s.cancelFunc = some t →
      t ∈ (Close s).1.cancelledTokens) ∧
    Close (Close s).1 = ((Close s).1, none) ∧
    (Close Controller.new).2 = none := by
  refine ⟨rfl, rfl, ?_, ?_, rfl⟩
  · intro t ht
    show t ∈ (Close s).1.cancelledTokens
    unfold Close
    rw [ht]
    exact mem_addToken_self t s.cancelledTokens
  · cases hcf : s.cancelFunc with
    | none =>
      rw [Close_none s hcf]
      show Close { s with joinedAll := true } =
        ({ s with joinedAll := true }, none)
      rw [Close_none _
        (show ({ s with joinedAll := true } : Controller).cancelFunc = none
          from hcf)]
    | some t =>
      rw [Close_some s t hcf]
      show Close { s with
          cancelledTokens := addToken t s.cancelledTokens
          joinedAll := true } =
        ({ s with
            cancelledTokens := addToken t s.cancelledTokens
            joinedAll := true }, none)
      rw [Close_some _ t
        (show ({ s with
            cancelledTokens := addToken t s.cancelledTokens
            joinedAll := true } : Controller).cancelFunc = some t from hcf)]
      simp [addToken_idem]

/-- Witness for C7: closing a freshly started instance cancels the
worker's token. -/
theorem C7_witness :
    (Close (startBackground Controller.new)).2 = none ∧
    0 ∈ (Close (startBackground Controller.new)).1.cancelledTokens :=
  ⟨(C7_close (startBackground Controller.new)).1,
    (C7_close (startBackground Controller.new)).2.2.1 0 rfl⟩

/-! ### C9: configuration validation -/

/-- C9: validating a config whose imu field is absent/empty fails with the
field-required error naming `"imu"`; a `Reconfigure` whose dependency
lookup fails returns the error with the prior state untouched — in
particular no worker is started. -/
theorem C9_config_validation (cfg : Config) (path : String) (s : Controller)
    (deps : List (String × String)) :
    (cfg.IMU = "" →
      Config.Validate cfg path = .error (.fieldRequired path "imu")) ∧
    (deps.lookup cfg.IMU = none →
      Reconfigure s deps cfg = (s, some (.missingDependency cfg.IMU))) := by
  constructor
  · intro h
    unfold Config.Validate
    rw [if_pos h]
  · intro h
    unfold Reconfigure
    rw [h]

/-- Witness for C9: the empty config fails validation, and reconfiguring
with no dependencies leaves the fresh instance untouched with no worker
started. -/
theorem C9_witness :
    Config.Validate ⟨""⟩ "p" = .error (.fieldRequired "p" "imu") ∧
    Reconfigure Controller.new [] ⟨""⟩ =
      (Controller.new, some (.missingDependency "")) :=
  ⟨(C9_config_validation ⟨""⟩ "p" Controller.new []).1 rfl,
    (C9_config_validation ⟨""⟩ "p" Controller.new []).2 rfl⟩

/-! ### C10: DoCommand leaves the instance state unchanged -/

/-- C10: for every request, `DoCommand` returns the receiver state
unchanged — the sensor handle, the cancel function and the worker join
state are untouched on the success path and on both error paths. -/
theorem C10_do_command_frame (s : Controller)
    (req : List (String × GoValue)) :
    (DoCommandS s req).1 = s ∧
    (DoCommandS s req).1.imu = s.imu ∧
    (DoCommandS s req).1.cancelFunc = s.cancelFunc ∧
    (DoCommandS s req).1.joinedAll = s.joinedAll ∧
    (DoCommandS s req).1.startedWorkers = s.startedWorkers :=
  ⟨rfl, rfl, rfl, rfl, rfl⟩

end Stumbler
